import Mathlib

/-!
Shallow embedding of `egui_double_slider` (`src/double_slider.rs`).

Modelling conventions:
* `f64` / `f32` arithmetic is modelled exactly over `ℚ` (the claims are about
  the algebra of the code, stated "within floating rounding tolerance";
  the exact model realises tolerance zero).
* The transcendental `f64` functions `log10` and `10.0f64.powf` have no exact
  rational counterpart; they are carried as explicit function fields
  `log10, pow10 : ℚ → ℚ` of the configuration, and theorems about the
  logarithmic branch assume exactly the algebraic facts (inverses,
  monotonicity) that the real functions satisfy.
* Rust's `f64::clamp(min, max)` panics when `min > max`; it is modelled as an
  `Option`-valued function, and the frame operation `DoubleSlider.ui`
  propagates the panic as `none`.
* The host toolkit (egui) is out of scope: the per-frame interaction state it
  reports (drag flags, pointer x in widget coordinates, hover, scroll and
  zoom deltas) is the `FrameInput` record, and the generic numeric type `T`
  is represented by a `ℚ` value together with the `INTEGRAL` flag of the
  configuration (`T::to_f64` / `T::from_f64` become the identity, resp. the
  rounding in `f64_to_val`).
* Rendering (shapes, colors) has no effect on the values or the changed flag
  and is not modelled.
-/

/-- `const OFFSET: f32 = 2.0;` -/
def OFFSET : ℚ := 2

/-- Rust `f64::round`: round to the nearest integer, halves away from zero. -/
def f64_round (x : ℚ) : ℚ :=
  if 0 ≤ x then ((⌊x + 1/2⌋ : ℤ) : ℚ) else ((⌈x - 1/2⌉ : ℤ) : ℚ)

/-- Rust `f64::clamp(lo, hi)`: asserts `lo ≤ hi` (panic modelled as `none`),
then saturates at the two bounds. -/
def f64_clamp (x lo hi : ℚ) : Option ℚ :=
  if lo ≤ hi then some (if x < lo then lo else if hi < x then hi else x) else none

/-- Rust `f64::clamp(0.0, 1.0)` (the bounds `0 ≤ 1` always hold, so this
cannot panic): used for the ratio clamping inside the coordinate mapper. -/
def clamp01 (v : ℚ) : ℚ :=
  if v < 0 then 0 else if 1 < v then 1 else v

/-- The `DoubleSlider` configuration: the builder fields that influence the
values and the changed flag.  `range_start`/`range_end` are
`range.start().to_f64()` / `range.end().to_f64()`; `integral` is
`T::INTEGRAL`; `log10`/`pow10` stand for `f64::log10` / `10.0f64.powf`. -/
structure DoubleSlider where
  separation_distance : ℚ
  control_point_radius : ℚ
  inverted_highlighting : Bool
  vertical_scroll : Bool
  horizontal_scroll : Bool
  scroll_factor : ℚ
  zoom_factor : ℚ
  width : ℚ
  range_start : ℚ
  range_end : ℚ
  logarithmic : Bool
  push_by_dragging : Bool
  integral : Bool
  log10 : ℚ → ℚ
  pow10 : ℚ → ℚ

namespace DoubleSlider

/-- `fn f64_to_val(&self, float: f64) -> T`: rounds decimal values when
casting to integers (instead of truncating like a native float-to-int
cast), passes floating values through unchanged. -/
def f64_to_val (c : DoubleSlider) (float : ℚ) : ℚ :=
  if c.integral then f64_round float else float

/-- `fn val_to_x(&self, val: T) -> f32` (lines 180-220 of the source). -/
def val_to_x (c : DoubleSlider) (val : ℚ) : ℚ :=
  let offset := c.control_point_radius + OFFSET
  let visual_slider_width := max (c.width - 2 * offset) 0
  if c.logarithmic ∧ (val ≤ 0 ∨ c.range_start ≤ 0 ∨ c.range_end ≤ 0) then
    offset
  else
    let current_val := if c.logarithmic then c.log10 val else val
    let range_min := if c.logarithmic then c.log10 c.range_start else c.range_start
    let range_max := if c.logarithmic then c.log10 c.range_end else c.range_end
    let range_span := range_max - range_min
    let t := if range_span = 0 then 0 else clamp01 ((current_val - range_min) / range_span)
    t * visual_slider_width + offset

/-- The `value_f64` computed inside `fn x_to_val` (lines 222-259), before the
final conversion back to `T`. -/
def x_to_val_value (c : DoubleSlider) (x_in_widget : ℚ) : ℚ :=
  let offset := c.control_point_radius + OFFSET
  let visual_slider_width := max (c.width - 2 * offset) 0
  let range_min := c.range_start
  let range_max := c.range_end
  if range_min = range_max then range_min
  else
    let x_on_track := x_in_widget - offset
    let t := if visual_slider_width = 0 then 0 else clamp01 (x_on_track / visual_slider_width)
    if c.logarithmic then
      if range_min ≤ 0 ∨ range_max ≤ 0 then range_min
      else
        let log_min := c.log10 range_min
        let log_max := c.log10 range_max
        c.pow10 (log_min + (log_max - log_min) * t)
    else
      range_min + (range_max - range_min) * t

/-- `fn x_to_val(&self, x_in_widget: f32) -> T` = the `value_f64` computation
followed by the single conversion point `f64_to_val`. -/
def x_to_val (c : DoubleSlider) (x_in_widget : ℚ) : ℚ :=
  c.f64_to_val (c.x_to_val_value x_in_widget)

/-- `fn clamp_to_range(&self, val: &T) -> T`
    (`self.f64_to_val(val.to_f64().clamp(start, end))`; the inner `clamp`
    panics -- `none` -- when the range is descending). -/
def clamp_to_range (c : DoubleSlider) (val : ℚ) : Option ℚ :=
  (f64_clamp val c.range_start c.range_end).map c.f64_to_val

end DoubleSlider

/-- The per-frame interaction state obtained from egui: for each of the three
interaction regions (the in-between span, the lower handle, the upper handle)
whether it is dragged and the relevant pointer data (drag delta in pixels for
the span; absolute pointer x in widget coordinates,
`pointer_pos.x - response.rect.left()`, for the handles), plus the
whole-region hover used by the scroll/zoom handler, the raw
`smooth_scroll_delta` components and the `zoom_delta()` gesture value. -/
structure FrameInput where
  in_between_dragged : Bool
  in_between_drag_delta : ℚ
  left_dragged : Bool
  left_pointer_x : ℚ
  right_dragged : Bool
  right_pointer_x : ℚ
  hovered : Bool
  scroll_x : ℚ
  scroll_y : ℚ
  zoom_gesture : ℚ

namespace DoubleSlider

/-- One frame of `impl Widget for DoubleSlider :: fn ui` (lines 292-552),
restricted to its effect on the two slider values and the changed flag.
`left0`/`right0` are the caller-owned `*left_slider` / `*right_slider` on
entry; the result is their values on return together with the changed flag
(`response.mark_changed()` calls).  `none` models a panic inside
`f64::clamp` (descending range). -/
def ui (c : DoubleSlider) (i : FrameInput) (left0 right0 : ℚ) :
    Option ((ℚ × ℚ) × Bool) :=
  -- drag both sliders by dragging the highlighted part
  -- (the in-between region only exists when highlighting is not inverted)
  let span_drag := !c.inverted_highlighting && i.in_between_dragged
  let right1 := if span_drag then
      c.x_to_val (c.val_to_x right0 + i.in_between_drag_delta) else right0
  let left1 := if span_drag then
      c.x_to_val (c.val_to_x left0 + i.in_between_drag_delta) else left0
  let changed1 := span_drag
  -- handle lower bound: drag
  let left2 := if i.left_dragged then c.x_to_val i.left_pointer_x else left1
  let changed2 := changed1 || i.left_dragged
  -- handle logic (lines 380-389)
  let right2 := if right1 < left2 + c.separation_distance then
      (if c.push_by_dragging then c.f64_to_val (left2 + c.separation_distance) else right1)
    else right1
  let left3 := if right1 < left2 + c.separation_distance then
      (if c.push_by_dragging then left2 else c.f64_to_val (right1 - c.separation_distance))
    else left2
  (c.clamp_to_range left3).bind fun left4 =>
  (c.clamp_to_range right2).bind fun right4 =>
  -- handle upper bound: drag
  let right5 := if i.right_dragged then c.x_to_val i.right_pointer_x else right4
  let changed3 := changed2 || i.right_dragged
  -- handle logic (lines 413-422)
  let left5 := if right5 - c.separation_distance < left4 then
      (if c.push_by_dragging then c.f64_to_val (right5 - c.separation_distance) else left4)
    else left4
  let right6 := if right5 - c.separation_distance < left4 then
      (if c.push_by_dragging then right5 else c.f64_to_val (left4 + c.separation_distance))
    else right5
  (c.clamp_to_range left5).bind fun left7 =>
  (c.clamp_to_range right6).bind fun right7 =>
  -- scroll through time axis (lines 517-549), only when the whole widget
  -- region is hovered
  if i.hovered then
    let scroll_delta := (if c.horizontal_scroll then i.scroll_x * c.scroll_factor else 0)
      + (if c.vertical_scroll then i.scroll_y * c.scroll_factor else 0)
    let zoom_delta := c.zoom_factor * (i.zoom_gesture - 1)
    let left8 := if c.logarithmic then c.x_to_val (c.val_to_x left7 + scroll_delta)
      else c.f64_to_val (left7 + scroll_delta)
    let right8 := if c.logarithmic then c.x_to_val (c.val_to_x right7 + scroll_delta)
      else c.f64_to_val (right7 + scroll_delta)
    let right9 := if c.logarithmic then c.x_to_val (c.val_to_x right8 - zoom_delta)
      else c.f64_to_val (right8 + zoom_delta)
    let left9 := if c.logarithmic then c.x_to_val (c.val_to_x left8 + zoom_delta)
      else c.f64_to_val (left8 - zoom_delta)
    (c.clamp_to_range left9).bind fun left10 =>
    (c.clamp_to_range right9).bind fun right10 =>
    some ((left10, right10),
      if scroll_delta ≠ 0 ∨ zoom_delta ≠ 0 then true else changed3)
  else
    some ((left7, right7), changed3)

end DoubleSlider

/-- A scratch configuration for smoke tests. -/
def cLin : DoubleSlider where
  separation_distance := 1
  control_point_radius := 7
  inverted_highlighting := false
  vertical_scroll := true
  horizontal_scroll := true
  scroll_factor := 1/100
  zoom_factor := 10
  width := 100
  range_start := 0
  range_end := 10
  logarithmic := false
  push_by_dragging := true
  integral := false
  log10 := fun _ => 0
  pow10 := fun _ => 0

namespace DoubleSlider

/-- The value produced by `clamp_to_range` when the range is ascending
(`f64::clamp` saturating at the bounds, then the conversion to `T`). -/
def clampPure (c : DoubleSlider) (val : ℚ) : ℚ :=
  c.f64_to_val (if val < c.range_start then c.range_start
    else if c.range_end < val then c.range_end else val)

/-- Pure version of one `ui` frame for an ascending range: what `ui` returns
when no clamp panics (see `ui_eq_some`). -/
def uiVals (c : DoubleSlider) (i : FrameInput) (left0 right0 : ℚ) :
    (ℚ × ℚ) × Bool :=
  let span_drag := !c.inverted_highlighting && i.in_between_dragged
  let right1 := if span_drag then
      c.x_to_val (c.val_to_x right0 + i.in_between_drag_delta) else right0
  let left1 := if span_drag then
      c.x_to_val (c.val_to_x left0 + i.in_between_drag_delta) else left0
  let changed1 := span_drag
  let left2 := if i.left_dragged then c.x_to_val i.left_pointer_x else left1
  let changed2 := changed1 || i.left_dragged
  let right2 := if right1 < left2 + c.separation_distance then
      (if c.push_by_dragging then c.f64_to_val (left2 + c.separation_distance) else right1)
    else right1
  let left3 := if right1 < left2 + c.separation_distance then
      (if c.push_by_dragging then left2 else c.f64_to_val (right1 - c.separation_distance))
    else left2
  let left4 := c.clampPure left3
  let right4 := c.clampPure right2
  let right5 := if i.right_dragged then c.x_to_val i.right_pointer_x else right4
  let changed3 := changed2 || i.right_dragged
  let left5 := if right5 - c.separation_distance < left4 then
      (if c.push_by_dragging then c.f64_to_val (right5 - c.separation_distance) else left4)
    else left4
  let right6 := if right5 - c.separation_distance < left4 then
      (if c.push_by_dragging then right5 else c.f64_to_val (left4 + c.separation_distance))
    else right5
  let left7 := c.clampPure left5
  let right7 := c.clampPure right6
  if i.hovered then
    let scroll_delta := (if c.horizontal_scroll then i.scroll_x * c.scroll_factor else 0)
      + (if c.vertical_scroll then i.scroll_y * c.scroll_factor else 0)
    let zoom_delta := c.zoom_factor * (i.zoom_gesture - 1)
    let left8 := if c.logarithmic then c.x_to_val (c.val_to_x left7 + scroll_delta)
      else c.f64_to_val (left7 + scroll_delta)
    let right8 := if c.logarithmic then c.x_to_val (c.val_to_x right7 + scroll_delta)
      else c.f64_to_val (right7 + scroll_delta)
    let right9 := if c.logarithmic then c.x_to_val (c.val_to_x right8 - zoom_delta)
      else c.f64_to_val (right8 + zoom_delta)
    let left9 := if c.logarithmic then c.x_to_val (c.val_to_x left8 + zoom_delta)
      else c.f64_to_val (left8 - zoom_delta)
    ((c.clampPure left9, c.clampPure right9),
      if scroll_delta ≠ 0 ∨ zoom_delta ≠ 0 then true else changed3)
  else
    ((left7, right7), changed3)

end DoubleSlider

/-- The model of `f64` used to state the logarithmic-mode configuration
precondition (the `assert!` in the `logarithmic` builder setter): a finite
rational, one of the two infinities, or NaN. -/
inductive F64 where
  | fin : ℚ → F64
  | posInf : F64
  | negInf : F64
  | nan : F64
deriving DecidableEq

/-- `f64::is_finite` (false for both infinities and NaN). -/
def F64.isFinite : F64 → Bool
  | .fin _ => true
  | _ => false

/-- `x > 0.0` on `f64` (false for NaN and negative infinity). -/
def F64.gtZero : F64 → Bool
  | .fin q => decide (0 < q)
  | .posInf => true
  | _ => false

/-- The fragment of the builder that the `logarithmic` setter touches:
`range.start().to_f64()`, `range.end().to_f64()` and the flag itself. -/
structure DoubleSliderF where
  range_start : F64
  range_end : F64
  logarithmic : Bool
deriving DecidableEq

/-- `pub fn logarithmic(mut self, logarithmic: bool) -> Self` (lines 159-170):
when `logarithmic` is requested, `assert!` that both range bounds are finite
and strictly positive; a failed assertion is a panic, modelled as
`Except.error` carrying the assertion message. -/
def DoubleSliderF.set_logarithmic (c : DoubleSliderF) (logarithmic : Bool) :
    Except String DoubleSliderF :=
  if logarithmic &&
      !(c.range_start.gtZero && c.range_start.isFinite &&
        c.range_end.gtZero && c.range_end.isFinite) then
    Except.error
      "Logarithmic scale can only be used with a range of finite, strictly positive values (both start and end)"
  else
    Except.ok { c with logarithmic := logarithmic }

/-- A frame with no interaction at all except possibly the whole-region
hover: nothing dragged, zero scroll, neutral zoom gesture
(`zoom_delta() = 1.0`). -/
def zeroInput (hovered : Bool) : FrameInput where
  in_between_dragged := false
  in_between_drag_delta := 0
  left_dragged := false
  left_pointer_x := 0
  right_dragged := false
  right_pointer_x := 0
  hovered := hovered
  scroll_x := 0
  scroll_y := 0
  zoom_gesture := 1

/-- `zeroInput false`: no interaction at all. -/
def noInput : FrameInput := zeroInput false

/-- A logarithmic configuration over `[1/10, 10]` whose `log10`/`pow10`
stand-ins are the identity (which satisfies every algebraic hypothesis the
theorems place on the real `log10`/`10^x` pair: mutually inverse and
monotone). -/
def cLogId : DoubleSlider where
  separation_distance := 1
  control_point_radius := 7
  inverted_highlighting := false
  vertical_scroll := true
  horizontal_scroll := true
  scroll_factor := 1/100
  zoom_factor := 10
  width := 100
  range_start := 1/10
  range_end := 10
  logarithmic := true
  push_by_dragging := true
  integral := false
  log10 := fun q => q
  pow10 := fun q => q

/-- The logarithmic range `[1e-10, 1e20]` of the spec scenario, with
identity `log10`/`pow10` stand-ins. -/
def cLogBig : DoubleSlider :=
  { cLogId with range_start := 1/10000000000, range_end := 100000000000000000000 }

/-- The spec scenario configuration: range `[10, 300]`, separation `10`,
with either value of `push_by_dragging`. -/
def c5cfg (push : Bool) : DoubleSlider :=
  { cLin with
    range_start := 10
    range_end := 300
    separation_distance := 10
    push_by_dragging := push }

/-- Dragging the lower handle to the pixel whose unclamped affine preimage is
the value `310` on the `[10, 300]` track (usable width `82`, offset `9`):
`(310 - 10) / (300 - 10) * 82 + 9 = 2721/29 ≈ 93.8`, beyond the track end. -/
def inp5 : FrameInput :=
  { noInput with left_dragged := true, left_pointer_x := 2721/29 }

/-- Logarithmic configuration for the zoom counterexample: separation `0`,
zoom factor `41/2`. -/
def c7cfg : DoubleSlider :=
  { cLogId with separation_distance := 0, zoom_factor := 41/2 }

/-- Hovered frame with a `zoom_delta()` gesture of `2` and no scroll. -/
def inp7 : FrameInput :=
  { noInput with hovered := true, zoom_gesture := 2 }

/-- An integral (integer-valued `T`) linear configuration on `[-150, 150]`. -/
def cInt : DoubleSlider :=
  { cLin with integral := true, range_start := -150, range_end := 150 }

namespace DoubleSlider

theorem clamp_to_range_eq_some (c : DoubleSlider) (val : ℚ)
    (h : c.range_start ≤ c.range_end) :
    c.clamp_to_range val = some (c.clampPure val) := by
  simp [clamp_to_range, f64_clamp, clampPure, if_pos h]

theorem clamp_to_range_eq_none (c : DoubleSlider) (val : ℚ)
    (h : c.range_end < c.range_start) :
    c.clamp_to_range val = none := by
  simp [clamp_to_range, f64_clamp, not_le.mpr h]

theorem ui_eq_some (c : DoubleSlider) (i : FrameInput) (left0 right0 : ℚ)
    (h : c.range_start ≤ c.range_end) :
    c.ui i left0 right0 = some (c.uiVals i left0 right0) := by
  unfold ui uiVals
  simp only [clamp_to_range_eq_some _ _ h, Option.some_bind]
  cases hh : i.hovered <;> simp only [Bool.false_eq_true, if_false, if_true]

/-- Discharge an `integral = true` hypothesis against a non-integral
configuration. -/
theorem integral_elim {c : DoubleSlider} (h : c.integral = false) {P : Prop} :
    c.integral = true → P := by
  intro hh
  rw [h] at hh
  exact absurd hh Bool.false_ne_true

end DoubleSlider

section RoundLemmas

theorem f64_round_int (n : ℤ) : f64_round (n : ℚ) = n := by
  unfold f64_round
  split
  · rw [show ((n : ℚ) + 1/2) = (1/2 : ℚ) + n by ring, Int.floor_add_int]
    norm_num
  · rw [show ((n : ℚ) - 1/2) = (-(1/2) : ℚ) + n by ring, Int.ceil_add_int]
    norm_num

theorem f64_round_exists_int (x : ℚ) : ∃ n : ℤ, f64_round x = (n : ℚ) := by
  unfold f64_round
  split
  · exact ⟨_, rfl⟩
  · exact ⟨_, rfl⟩

theorem f64_round_le (x : ℚ) : f64_round x ≤ x + 1/2 := by
  unfold f64_round
  split
  · exact_mod_cast Int.floor_le (x + 1/2)
  · have h1 : (⌈x - 1/2⌉ : ℚ) < (x - 1/2) + 1 := by exact_mod_cast Int.ceil_lt_add_one (x - 1/2)
    linarith

theorem f64_round_ge (x : ℚ) : x - 1/2 ≤ f64_round x := by
  unfold f64_round
  split
  · have h1 : x + 1/2 < (⌊x + 1/2⌋ : ℚ) + 1 := by exact_mod_cast Int.lt_floor_add_one (x + 1/2)
    linarith
  · exact_mod_cast Int.le_ceil (x - 1/2)

theorem f64_round_eq_self {q : ℚ} (h : ∃ n : ℤ, q = (n : ℚ)) : f64_round q = q := by
  obtain ⟨n, rfl⟩ := h
  exact f64_round_int n

theorem f64_round_mem {lo hi x : ℚ} (hlo : ∃ n : ℤ, lo = (n : ℚ))
    (hhi : ∃ n : ℤ, hi = (n : ℚ)) (h1 : lo ≤ x) (h2 : x ≤ hi) :
    lo ≤ f64_round x ∧ f64_round x ≤ hi := by
  obtain ⟨a, rfl⟩ := hlo
  obtain ⟨b, rfl⟩ := hhi
  obtain ⟨n, hn⟩ := f64_round_exists_int x
  have h3 := f64_round_ge x
  have h4 := f64_round_le x
  rw [hn] at h3 h4 ⊢
  constructor
  · have ha : (a : ℚ) < (n : ℚ) + 1 := by linarith
    have : a < n + 1 := by exact_mod_cast ha
    exact_mod_cast Int.lt_add_one_iff.mp this
  · have hb : (n : ℚ) < (b : ℚ) + 1 := by linarith
    have : n < b + 1 := by exact_mod_cast hb
    exact_mod_cast Int.lt_add_one_iff.mp this

end RoundLemmas

theorem clamp01_mem (v : ℚ) : 0 ≤ clamp01 v ∧ clamp01 v ≤ 1 := by
  unfold clamp01
  split_ifs <;> constructor <;> linarith

theorem clamp01_eq_self {v : ℚ} (h0 : 0 ≤ v) (h1 : v ≤ 1) : clamp01 v = v := by
  unfold clamp01
  rw [if_neg (not_lt.mpr h0), if_neg (not_lt.mpr h1)]

namespace DoubleSlider

theorem f64_to_val_of_not_integral (c : DoubleSlider) (x : ℚ)
    (h : c.integral = false) : c.f64_to_val x = x := by
  simp [f64_to_val, h]

theorem f64_to_val_eq_self (c : DoubleSlider) (x : ℚ)
    (h : c.integral = true → ∃ n : ℤ, x = (n : ℚ)) : c.f64_to_val x = x := by
  unfold f64_to_val
  split
  case isTrue hI => exact f64_round_eq_self (h hI)
  case isFalse => rfl

theorem f64_to_val_mem (c : DoubleSlider) (x : ℚ)
    (hint : c.integral = true →
      (∃ n : ℤ, c.range_start = (n : ℚ)) ∧ (∃ n : ℤ, c.range_end = (n : ℚ)))
    (h1 : c.range_start ≤ x) (h2 : x ≤ c.range_end) :
    c.range_start ≤ c.f64_to_val x ∧ c.f64_to_val x ≤ c.range_end := by
  unfold f64_to_val
  split
  case isTrue hI => exact f64_round_mem (hint hI).1 (hint hI).2 h1 h2
  case isFalse => exact ⟨h1, h2⟩

theorem clampPure_mem (c : DoubleSlider) (v : ℚ) (h : c.range_start ≤ c.range_end)
    (hint : c.integral = true →
      (∃ n : ℤ, c.range_start = (n : ℚ)) ∧ (∃ n : ℤ, c.range_end = (n : ℚ))) :
    c.range_start ≤ c.clampPure v ∧ c.clampPure v ≤ c.range_end := by
  unfold clampPure
  apply c.f64_to_val_mem _ hint <;> split_ifs <;> linarith

theorem clampPure_eq_self (c : DoubleSlider) (v : ℚ)
    (h1 : c.range_start ≤ v) (h2 : v ≤ c.range_end)
    (hv : c.integral = true → ∃ n : ℤ, v = (n : ℚ)) : c.clampPure v = v := by
  unfold clampPure
  rw [if_neg (not_lt.mpr h1), if_neg (not_lt.mpr h2)]
  exact c.f64_to_val_eq_self v hv

/-- In non-logarithmic mode with an ascending range, the `value_f64` computed
by `x_to_val` lies within the range (the pixel ratio is clamped to `[0, 1]`
before the interpolation). -/
theorem x_to_val_value_mem_of_linear (c : DoubleSlider) (x : ℚ)
    (hlog : c.logarithmic = false) (h : c.range_start ≤ c.range_end) :
    c.range_start ≤ c.x_to_val_value x ∧ c.x_to_val_value x ≤ c.range_end := by
  unfold x_to_val_value
  simp only [hlog, Bool.false_eq_true, if_false]
  split
  case isTrue heq => exact ⟨le_refl _, h⟩
  case isFalse hne =>
    set t := if max (c.width - 2 * (c.control_point_radius + OFFSET)) 0 = 0 then 0
      else clamp01 ((x - (c.control_point_radius + OFFSET)) /
        max (c.width - 2 * (c.control_point_radius + OFFSET)) 0) with ht
    have htm : 0 ≤ t ∧ t ≤ 1 := by
      rw [ht]
      split
      · norm_num
      · exact clamp01_mem _
    constructor
    · nlinarith [htm.1, htm.2, sub_nonneg.mpr h]
    · nlinarith [htm.1, htm.2, sub_nonneg.mpr h]

theorem x_to_val_mem_of_linear (c : DoubleSlider) (x : ℚ)
    (hlog : c.logarithmic = false) (h : c.range_start ≤ c.range_end)
    (hint : c.integral = true →
      (∃ n : ℤ, c.range_start = (n : ℚ)) ∧ (∃ n : ℤ, c.range_end = (n : ℚ))) :
    c.range_start ≤ c.x_to_val x ∧ c.x_to_val x ≤ c.range_end := by
  unfold x_to_val
  have hm := c.x_to_val_value_mem_of_linear x hlog h
  exact c.f64_to_val_mem _ hint hm.1 hm.2

/-- Closed form of `val_to_x` in non-logarithmic mode with a non-degenerate
range. -/
theorem val_to_x_eq_of_linear (c : DoubleSlider) (v : ℚ)
    (hlog : c.logarithmic = false) (hne : c.range_end - c.range_start ≠ 0) :
    c.val_to_x v = clamp01 ((v - c.range_start) / (c.range_end - c.range_start)) *
      max (c.width - 2 * (c.control_point_radius + OFFSET)) 0 +
      (c.control_point_radius + OFFSET) := by
  unfold val_to_x
  simp only [hlog, Bool.false_eq_true, false_and, if_false, if_neg hne]

/-- Closed form of `x_to_val_value` in non-logarithmic mode with a
non-degenerate range and nonzero usable width. -/
theorem x_to_val_value_eq_of_linear (c : DoubleSlider) (x : ℚ)
    (hlog : c.logarithmic = false) (hne : c.range_start ≠ c.range_end)
    (hw0 : max (c.width - 2 * (c.control_point_radius + OFFSET)) 0 ≠ 0) :
    c.x_to_val_value x = c.range_start + (c.range_end - c.range_start) *
      clamp01 ((x - (c.control_point_radius + OFFSET)) /
        max (c.width - 2 * (c.control_point_radius + OFFSET)) 0) := by
  unfold x_to_val_value
  simp only [hlog, Bool.false_eq_true, if_false, if_neg hne, if_neg hw0]

/-- Round-trip of the coordinate mapper in non-logarithmic mode: exact over
the rational model whenever the usable track width is positive. -/
theorem roundtrip_of_linear (c : DoubleSlider) (v : ℚ)
    (hlog : c.logarithmic = false)
    (hw : 0 < c.width - 2 * (c.control_point_radius + OFFSET))
    (h1 : c.range_start ≤ v) (h2 : v ≤ c.range_end)
    (hv : c.integral = true → ∃ n : ℤ, v = (n : ℚ)) :
    c.x_to_val (c.val_to_x v) = v := by
  have hwmax : max (c.width - 2 * (c.control_point_radius + OFFSET)) 0
      = c.width - 2 * (c.control_point_radius + OFFSET) := max_eq_left hw.le
  by_cases hspan : c.range_end - c.range_start = 0
  · have heq : c.range_start = c.range_end := by linarith
    have hveq : v = c.range_start := by
      have := heq ▸ h2
      linarith
    unfold x_to_val x_to_val_value val_to_x
    simp only [hlog, Bool.false_eq_true, false_and, if_false, if_pos hspan, if_pos heq]
    rw [c.f64_to_val_eq_self _ (by rw [hveq] at hv; exact hv ∘ id), hveq]
  · have hlt : c.range_start < c.range_end := by
      rcases (sub_ne_zero.mp hspan).lt_or_lt with h | h
      · linarith
      · linarith
    have hspanpos : 0 < c.range_end - c.range_start := by linarith
    have hq0 : 0 ≤ (v - c.range_start) / (c.range_end - c.range_start) :=
      div_nonneg (by linarith) hspanpos.le
    have hq1 : (v - c.range_start) / (c.range_end - c.range_start) ≤ 1 :=
      (div_le_one hspanpos).mpr (by linarith)
    rw [val_to_x_eq_of_linear c v hlog hspan, clamp01_eq_self hq0 hq1]
    unfold x_to_val
    rw [x_to_val_value_eq_of_linear c _ hlog (by intro hh; exact hspan (by linarith))
      (by rw [hwmax]; exact ne_of_gt hw)]
    rw [hwmax, add_sub_cancel_right, mul_div_assoc,
      div_self (ne_of_gt hw), mul_one, clamp01_eq_self hq0 hq1,
      mul_div_cancel₀ _ hspan]
    rw [show c.range_start + (v - c.range_start) = v by ring]
    exact c.f64_to_val_eq_self v hv

/-- Closed form of `val_to_x` in logarithmic mode with positive value and
bounds and non-degenerate logarithmic span. -/
theorem val_to_x_eq_of_log (c : DoubleSlider) (v : ℚ)
    (hlog : c.logarithmic = true) (hv0 : 0 < v)
    (hlo : 0 < c.range_start) (hhi : 0 < c.range_end)
    (hne : c.log10 c.range_end - c.log10 c.range_start ≠ 0) :
    c.val_to_x v = clamp01 ((c.log10 v - c.log10 c.range_start) /
        (c.log10 c.range_end - c.log10 c.range_start)) *
      max (c.width - 2 * (c.control_point_radius + OFFSET)) 0 +
      (c.control_point_radius + OFFSET) := by
  unfold val_to_x
  rw [if_neg (by
    simp only [hlog, true_and, not_or, not_le]
    exact ⟨hv0, hlo, hhi⟩)]
  simp only [hlog, if_true, if_neg hne]

/-- Closed form of `x_to_val_value` in logarithmic mode. -/
theorem x_to_val_value_eq_of_log (c : DoubleSlider) (x : ℚ)
    (hlog : c.logarithmic = true) (hne : c.range_start ≠ c.range_end)
    (hlo : 0 < c.range_start) (hhi : 0 < c.range_end)
    (hw0 : max (c.width - 2 * (c.control_point_radius + OFFSET)) 0 ≠ 0) :
    c.x_to_val_value x = c.pow10 (c.log10 c.range_start +
      (c.log10 c.range_end - c.log10 c.range_start) *
      clamp01 ((x - (c.control_point_radius + OFFSET)) /
        max (c.width - 2 * (c.control_point_radius + OFFSET)) 0)) := by
  unfold x_to_val_value
  rw [if_neg hne]
  simp only [hlog, if_true, if_neg hw0]
  rw [if_neg (by
    simp only [not_or, not_le]
    exact ⟨hlo, hhi⟩)]

/-- Round-trip of the coordinate mapper in logarithmic mode, under the
algebraic facts satisfied by the real `log10` and `10^x`: they are inverse at
`v` and `log10` is compatible with the ordering of `v` and the (strictly
positive) bounds. -/
theorem roundtrip_of_log (c : DoubleSlider) (v : ℚ)
    (hlog : c.logarithmic = true)
    (hw : 0 < c.width - 2 * (c.control_point_radius + OFFSET))
    (hlo : 0 < c.range_start) (hhi : 0 < c.range_end) (hv0 : 0 < v)
    (hm1 : c.log10 c.range_start ≤ c.log10 v)
    (hm2 : c.log10 v ≤ c.log10 c.range_end)
    (hstrict : c.log10 c.range_start < c.log10 c.range_end)
    (hinv : c.pow10 (c.log10 v) = v)
    (hv : c.integral = true → ∃ n : ℤ, v = (n : ℚ)) :
    c.x_to_val (c.val_to_x v) = v := by
  have hwmax : max (c.width - 2 * (c.control_point_radius + OFFSET)) 0
      = c.width - 2 * (c.control_point_radius + OFFSET) := max_eq_left hw.le
  have hspan : c.log10 c.range_end - c.log10 c.range_start ≠ 0 := by
    intro hh
    linarith
  have hspanpos : 0 < c.log10 c.range_end - c.log10 c.range_start := by linarith
  have hrne : c.range_start ≠ c.range_end := by
    intro hh
    rw [hh] at hstrict
    exact lt_irrefl _ hstrict
  have hq0 : 0 ≤ (c.log10 v - c.log10 c.range_start) /
      (c.log10 c.range_end - c.log10 c.range_start) := div_nonneg (by linarith) hspanpos.le
  have hq1 : (c.log10 v - c.log10 c.range_start) /
      (c.log10 c.range_end - c.log10 c.range_start) ≤ 1 :=
    (div_le_one hspanpos).mpr (by linarith)
  rw [val_to_x_eq_of_log c v hlog hv0 hlo hhi hspan, clamp01_eq_self hq0 hq1]
  unfold x_to_val
  rw [x_to_val_value_eq_of_log c _ hlog hrne hlo hhi (by rw [hwmax]; exact ne_of_gt hw)]
  rw [hwmax, add_sub_cancel_right, mul_div_assoc,
    div_self (ne_of_gt hw), mul_one, clamp01_eq_self hq0 hq1,
    mul_div_cancel₀ _ hspan]
  rw [show c.log10 c.range_start + (c.log10 v - c.log10 c.range_start) = c.log10 v by ring,
    hinv]
  exact c.f64_to_val_eq_self v hv

end DoubleSlider

namespace DoubleSlider

/-- In logarithmic mode, `x_to_val` stays within the range bounds, given the
monotonicity of `pow10` and that `pow10`/`log10` are mutually inverse at the
two bounds (facts satisfied by the real functions on a strictly positive
range). -/
theorem x_to_val_mem_of_log (c : DoubleSlider) (x : ℚ)
    (hlog : c.logarithmic = true)
    (hlo : 0 < c.range_start) (hhi : 0 < c.range_end)
    (hasc : c.range_start ≤ c.range_end)
    (hmono : ∀ a b, a ≤ b → c.pow10 a ≤ c.pow10 b)
    (hplo : c.pow10 (c.log10 c.range_start) = c.range_start)
    (hphi : c.pow10 (c.log10 c.range_end) = c.range_end)
    (hll : c.log10 c.range_start ≤ c.log10 c.range_end)
    (hint : c.integral = true →
      (∃ n : ℤ, c.range_start = (n : ℚ)) ∧ (∃ n : ℤ, c.range_end = (n : ℚ))) :
    c.range_start ≤ c.x_to_val x ∧ c.x_to_val x ≤ c.range_end := by
  have hv : c.range_start ≤ c.x_to_val_value x ∧ c.x_to_val_value x ≤ c.range_end := by
    unfold x_to_val_value
    by_cases heq : c.range_start = c.range_end
    · rw [if_pos heq]
      exact ⟨le_refl _, hasc⟩
    · rw [if_neg heq]
      simp only [hlog, if_true]
      rw [if_neg (by
        simp only [not_or, not_le]
        exact ⟨hlo, hhi⟩)]
      set t := if max (c.width - 2 * (c.control_point_radius + OFFSET)) 0 = 0 then 0
        else clamp01 ((x - (c.control_point_radius + OFFSET)) /
          max (c.width - 2 * (c.control_point_radius + OFFSET)) 0) with ht
      have htm : 0 ≤ t ∧ t ≤ 1 := by
        rw [ht]
        split
        · norm_num
        · exact clamp01_mem _
      constructor
      · calc c.range_start = c.pow10 (c.log10 c.range_start) := hplo.symm
          _ ≤ _ := hmono _ _ (by nlinarith [htm.1, htm.2])
      · calc c.pow10 (c.log10 c.range_start +
              (c.log10 c.range_end - c.log10 c.range_start) * t)
              ≤ c.pow10 (c.log10 c.range_end) := hmono _ _ (by nlinarith [htm.1, htm.2])
          _ = c.range_end := hphi
  exact c.f64_to_val_mem _ hint hv.1 hv.2

/-- Shape of a frame with no span drag and no hover: only the two handle
drags, the two separation fix-ups and the range clamps act. -/
theorem uiVals_drag_eq (c : DoubleSlider) (i : FrameInput) (left0 right0 : ℚ)
    (hspan : i.in_between_dragged = false) (hhov : i.hovered = false) :
    c.uiVals i left0 right0 =
      (let left2 := if i.left_dragged then c.x_to_val i.left_pointer_x else left0
       let right2 := if right0 < left2 + c.separation_distance then
           (if c.push_by_dragging then c.f64_to_val (left2 + c.separation_distance) else right0)
         else right0
       let left3 := if right0 < left2 + c.separation_distance then
           (if c.push_by_dragging then left2 else c.f64_to_val (right0 - c.separation_distance))
         else left2
       let left4 := c.clampPure left3
       let right4 := c.clampPure right2
       let right5 := if i.right_dragged then c.x_to_val i.right_pointer_x else right4
       let left5 := if right5 - c.separation_distance < left4 then
           (if c.push_by_dragging then c.f64_to_val (right5 - c.separation_distance) else left4)
         else left4
       let right6 := if right5 - c.separation_distance < left4 then
           (if c.push_by_dragging then right5 else c.f64_to_val (left4 + c.separation_distance))
         else right5
       ((c.clampPure left5, c.clampPure right6), i.left_dragged || i.right_dragged)) := by
  unfold uiVals
  simp only [hspan, hhov, Bool.and_false, Bool.false_eq_true, if_false, Bool.false_or]

/-- Shape of a hovered frame with no drags, starting from an in-range,
separated pair: the fix-ups and the first two clamp rounds are no-ops and
only the scroll/zoom handler acts. -/
theorem uiVals_hover_eq (c : DoubleSlider) (i : FrameInput) (l0 r0 : ℚ)
    (hspan : i.in_between_dragged = false) (hld : i.left_dragged = false)
    (hrd : i.right_dragged = false) (hhov : i.hovered = true)
    (hl0 : c.range_start ≤ l0) (hl0' : l0 ≤ c.range_end)
    (hr0 : c.range_start ≤ r0) (hr0' : r0 ≤ c.range_end)
    (hsep : l0 + c.separation_distance ≤ r0)
    (hvl : c.integral = true → ∃ n : ℤ, l0 = (n : ℚ))
    (hvr : c.integral = true → ∃ n : ℤ, r0 = (n : ℚ)) :
    c.uiVals i l0 r0 =
      (let scroll_delta := (if c.horizontal_scroll then i.scroll_x * c.scroll_factor else 0)
         + (if c.vertical_scroll then i.scroll_y * c.scroll_factor else 0)
       let zoom_delta := c.zoom_factor * (i.zoom_gesture - 1)
       let left8 := if c.logarithmic then c.x_to_val (c.val_to_x l0 + scroll_delta)
         else c.f64_to_val (l0 + scroll_delta)
       let right8 := if c.logarithmic then c.x_to_val (c.val_to_x r0 + scroll_delta)
         else c.f64_to_val (r0 + scroll_delta)
       let right9 := if c.logarithmic then c.x_to_val (c.val_to_x right8 - zoom_delta)
         else c.f64_to_val (right8 + zoom_delta)
       let left9 := if c.logarithmic then c.x_to_val (c.val_to_x left8 + zoom_delta)
         else c.f64_to_val (left8 - zoom_delta)
       ((c.clampPure left9, c.clampPure right9),
         if scroll_delta ≠ 0 ∨ zoom_delta ≠ 0 then true else false)) := by
  unfold uiVals
  simp only [hspan, hld, hrd, hhov, Bool.and_false, Bool.false_eq_true, if_false,
    Bool.false_or, Bool.or_false, if_true]
  rw [if_neg (not_lt.mpr hsep), if_neg (not_lt.mpr hsep),
    clampPure_eq_self c l0 hl0 hl0' hvl, clampPure_eq_self c r0 hr0 hr0' hvr,
    if_neg (not_lt.mpr (by linarith)), if_neg (not_lt.mpr (by linarith)),
    clampPure_eq_self c l0 hl0 hl0' hvl, clampPure_eq_self c r0 hr0 hr0' hvr]

end DoubleSlider

/-- C3: for every value `v` within `value_range` and a track of positive
usable width, in non-logarithmic mode `x_to_val (val_to_x v) = v` (the exact
rational model realises the floating "rounding tolerance" as zero); the same
holds in logarithmic mode for `v > 0` within a strictly positive range, under
the algebraic facts the real `log10`/`10^x` satisfy there (mutually inverse
at `v`, order-compatible at the bounds). -/
theorem C3_roundtrip :
    (∀ (c : DoubleSlider) (v : ℚ), c.logarithmic = false →
      0 < c.width - 2 * (c.control_point_radius + OFFSET) →
      c.range_start ≤ v → v ≤ c.range_end →
      (c.integral = true → ∃ n : ℤ, v = (n : ℚ)) →
      c.x_to_val (c.val_to_x v) = v) ∧
    (∀ (c : DoubleSlider) (v : ℚ), c.logarithmic = true →
      0 < c.width - 2 * (c.control_point_radius + OFFSET) →
      0 < c.range_start → 0 < c.range_end → 0 < v →
      c.log10 c.range_start ≤ c.log10 v → c.log10 v ≤ c.log10 c.range_end →
      c.log10 c.range_start < c.log10 c.range_end →
      c.pow10 (c.log10 v) = v →
      (c.integral = true → ∃ n : ℤ, v = (n : ℚ)) →
      c.x_to_val (c.val_to_x v) = v) :=
  ⟨fun c v h1 h2 h3 h4 h5 => c.roundtrip_of_linear v h1 h2 h3 h4 h5,
   fun c v h1 h2 h3 h4 h5 h6 h7 h8 h9 h10 =>
     c.roundtrip_of_log v h1 h2 h3 h4 h5 h6 h7 h8 h9 h10⟩

/-- Witness for C3: concrete round trips, linear (`v = 3` on `[0, 10]`) and
logarithmic (`v = 1` on `[1/10, 10]` with identity stand-ins, which satisfy
all the `log10`/`pow10` hypotheses). -/
theorem C3_roundtrip_witness :
    cLin.x_to_val (cLin.val_to_x 3) = 3 ∧ cLogId.x_to_val (cLogId.val_to_x 1) = 1 :=
  ⟨C3_roundtrip.1 cLin 3 rfl (by norm_num [cLin, OFFSET]) (by norm_num [cLin])
      (by norm_num [cLin]) (DoubleSlider.integral_elim rfl),
   C3_roundtrip.2 cLogId 1 rfl (by norm_num [cLogId, OFFSET]) (by norm_num [cLogId])
      (by norm_num [cLogId]) (by norm_num) (by norm_num [cLogId]) (by norm_num [cLogId])
      (by norm_num [cLogId]) (by norm_num [cLogId]) (DoubleSlider.integral_elim rfl)⟩

/-- C6: requesting logarithmic mode on a range whose lower or upper bound is
non-positive (`> 0.0` fails, which also covers NaN) or non-finite panics in
the `logarithmic` builder setter (`assert!`), modelled as `Except.error`: the
configuration is never produced. -/
theorem C6_log_precondition (cf : DoubleSliderF)
    (h : cf.range_start.gtZero = false ∨ cf.range_start.isFinite = false ∨
      cf.range_end.gtZero = false ∨ cf.range_end.isFinite = false) :
    ∃ msg, cf.set_logarithmic true = Except.error msg := by
  have hc : (true && !(cf.range_start.gtZero && cf.range_start.isFinite &&
      cf.range_end.gtZero && cf.range_end.isFinite)) = true := by
    rcases h with h | h | h | h <;> simp [h]
  exact ⟨_, by
    unfold DoubleSliderF.set_logarithmic
    rw [if_pos hc]⟩

/-- Witness for C6: logarithmic mode on the range `[0.0, 100.0]` fails fast
(the spec's concrete scenario 4). -/
theorem C6_log_precondition_witness :
    ∃ msg, (⟨F64.fin 0, F64.fin 100, false⟩ : DoubleSliderF).set_logarithmic true
      = Except.error msg :=
  C6_log_precondition _ (Or.inl (by norm_num [F64.gtZero]))

/-- C8: `f64_to_val` is the single point where integral and floating
semantics diverge: floating values pass through unchanged, integral values
are rounded by `f64::round`, which yields a nearest integer (distance to the
result is minimal over all integers -- never a truncation), and `x_to_val`
is exactly the `value_f64` computation followed by this one conversion. -/
theorem C8_integral_rounding :
    (∀ (c : DoubleSlider) (x : ℚ), c.integral = false → c.f64_to_val x = x) ∧
    (∀ (c : DoubleSlider) (x : ℚ), c.integral = true → c.f64_to_val x = f64_round x) ∧
    (∀ x : ℚ, ∃ n : ℤ, f64_round x = (n : ℚ) ∧
      ∀ m : ℤ, |x - (n : ℚ)| ≤ |x - (m : ℚ)|) ∧
    (∀ (c : DoubleSlider) (x : ℚ), c.x_to_val x = c.f64_to_val (c.x_to_val_value x)) := by
  refine ⟨fun c x h => c.f64_to_val_of_not_integral x h,
    fun c x h => by simp [DoubleSlider.f64_to_val, h],
    fun x => ?_, fun c x => rfl⟩
  obtain ⟨n, hn⟩ := f64_round_exists_int x
  refine ⟨n, hn, fun m => ?_⟩
  have h3 := f64_round_ge x
  have h4 := f64_round_le x
  rw [hn] at h3 h4
  rcases eq_or_ne n m with rfl | hne
  · exact le_refl _
  · have h5 : (1 : ℚ) ≤ |(n : ℚ) - (m : ℚ)| := by
      have h5' : (1 : ℤ) ≤ |n - m| := Int.one_le_abs (sub_ne_zero.mpr hne)
      have h5q : ((1 : ℤ) : ℚ) ≤ ((|n - m| : ℤ) : ℚ) := Int.cast_le.mpr h5'
      rwa [Int.cast_abs, Int.cast_sub, Int.cast_one] at h5q
    have h6 : |x - (n : ℚ)| ≤ 1/2 := abs_sub_le_iff.mpr ⟨by linarith, by linarith⟩
    have h7 : |(n : ℚ) - (m : ℚ)| ≤ |(n : ℚ) - x| + |x - (m : ℚ)| := abs_sub_le _ _ _
    have h8 : |(n : ℚ) - x| = |x - (n : ℚ)| := abs_sub_comm _ _
    linarith

/-- Witness for C8: on a floating configuration `5/2` passes through; on an
integral configuration it is rounded like `f64::round` to `3` (half away from
zero), not truncated to `2`. -/
theorem C8_integral_rounding_witness :
    cLin.f64_to_val (5/2) = 5/2 ∧ cInt.f64_to_val (5/2) = f64_round (5/2) ∧
      f64_round (5/2) = 3 :=
  ⟨C8_integral_rounding.1 cLin (5/2) rfl, C8_integral_rounding.2.1 cInt (5/2) rfl,
   by norm_num [f64_round]⟩

/-- C9: the claim says a descending range (`min > max`) is supported and the
final range clamp is total, but `clamp_to_range` calls `f64::clamp`, whose
`assert!(min <= max)` panics on every descending range -- and the crate's own
documentation promises "The range ... can go from low-to-high or from
high-to-low".  In the model the panic is `none`: every frame on a descending
range fails at the first clamp, for all inputs and values.  This contradicts
the code's documentation, so the code, not the claim, is wrong. -/
theorem C9_descending_panics (c : DoubleSlider) (i : FrameInput) (l r : ℚ)
    (h : c.range_end < c.range_start) : c.ui i l r = none := by
  unfold DoubleSlider.ui
  simp only [DoubleSlider.clamp_to_range_eq_none _ _ h, Option.none_bind]

/-- Witness for C9: the frame on range `300..=10` with values `(150, 200)`
and no input panics (returns `none`). -/
theorem C9_descending_panics_witness :
    ({ cLin with range_start := 300, range_end := 10 } : DoubleSlider).ui
      noInput 150 200 = none :=
  C9_descending_panics _ noInput 150 200 (by norm_num [cLin])

/-- C10: for every pixel coordinate (also outside the track) and every
ascending range, `x_to_val` returns a value within `[min, max]`, because the
pixel ratio is clamped to `[0, 1]` before interpolation.  Stated for
non-logarithmic mode directly, and for logarithmic mode under the
monotonicity/inverse facts of the real `log10`/`10^x` pair; for an integral
type the range bounds are integers. -/
theorem C10_x_to_val_in_range :
    (∀ (c : DoubleSlider) (x : ℚ), c.logarithmic = false →
      c.range_start ≤ c.range_end →
      (c.integral = true →
        (∃ n : ℤ, c.range_start = (n : ℚ)) ∧ (∃ n : ℤ, c.range_end = (n : ℚ))) →
      c.range_start ≤ c.x_to_val x ∧ c.x_to_val x ≤ c.range_end) ∧
    (∀ (c : DoubleSlider) (x : ℚ), c.logarithmic = true →
      0 < c.range_start → 0 < c.range_end → c.range_start ≤ c.range_end →
      (∀ a b, a ≤ b → c.pow10 a ≤ c.pow10 b) →
      c.pow10 (c.log10 c.range_start) = c.range_start →
      c.pow10 (c.log10 c.range_end) = c.range_end →
      c.log10 c.range_start ≤ c.log10 c.range_end →
      (c.integral = true →
        (∃ n : ℤ, c.range_start = (n : ℚ)) ∧ (∃ n : ℤ, c.range_end = (n : ℚ))) →
      c.range_start ≤ c.x_to_val x ∧ c.x_to_val x ≤ c.range_end) :=
  ⟨fun c x h1 h2 h3 => c.x_to_val_mem_of_linear x h1 h2 h3,
   fun c x h1 h2 h3 h4 h5 h6 h7 h8 h9 => c.x_to_val_mem_of_log x h1 h2 h3 h4 h5 h6 h7 h8 h9⟩

/-- Witness for C10: the out-of-track pixels `-100` (linear `[0, 10]`) and
`1000` (logarithmic `[1/10, 10]`) still map into the range. -/
theorem C10_x_to_val_in_range_witness :
    (cLin.range_start ≤ cLin.x_to_val (-100) ∧ cLin.x_to_val (-100) ≤ cLin.range_end) ∧
    (cLogId.range_start ≤ cLogId.x_to_val 1000 ∧ cLogId.x_to_val 1000 ≤ cLogId.range_end) :=
  ⟨C10_x_to_val_in_range.1 cLin (-100) rfl (by norm_num [cLin])
      (DoubleSlider.integral_elim rfl),
   C10_x_to_val_in_range.2 cLogId 1000 rfl (by norm_num [cLogId]) (by norm_num [cLogId])
      (by norm_num [cLogId]) (fun a b h => by simpa [cLogId] using h)
      (by norm_num [cLogId]) (by norm_num [cLogId]) (by norm_num [cLogId])
      (DoubleSlider.integral_elim rfl)⟩

/-- C2: for every ascending range and every combination of drag, scroll and
zoom input in one frame (any mode; integral types have integer range
bounds), the frame succeeds and both returned values lie within
`[range_start, range_end]` inclusive -- the final write to each value is
always a range clamp. -/
theorem C2_range_containment (c : DoubleSlider) (i : FrameInput) (l r : ℚ)
    (hasc : c.range_start ≤ c.range_end)
    (hint : c.integral = true →
      (∃ n : ℤ, c.range_start = (n : ℚ)) ∧ (∃ n : ℤ, c.range_end = (n : ℚ))) :
    ∃ l' r' ch, c.ui i l r = some ((l', r'), ch) ∧
      c.range_start ≤ l' ∧ l' ≤ c.range_end ∧
      c.range_start ≤ r' ∧ r' ≤ c.range_end := by
  rw [c.ui_eq_some i l r hasc]
  unfold DoubleSlider.uiVals
  cases hh : i.hovered
  · simp only [hh, Bool.false_eq_true, if_false]
    exact ⟨_, _, _, rfl, (c.clampPure_mem _ hasc hint).1, (c.clampPure_mem _ hasc hint).2,
      (c.clampPure_mem _ hasc hint).1, (c.clampPure_mem _ hasc hint).2⟩
  · simp only [hh, if_true]
    exact ⟨_, _, _, rfl, (c.clampPure_mem _ hasc hint).1, (c.clampPure_mem _ hasc hint).2,
      (c.clampPure_mem _ hasc hint).1, (c.clampPure_mem _ hasc hint).2⟩

/-- Witness for C2 at a concrete frame. -/
theorem C2_range_containment_witness :
    ∃ l' r' ch, cLin.ui noInput 3 7 = some ((l', r'), ch) ∧
      cLin.range_start ≤ l' ∧ l' ≤ cLin.range_end ∧
      cLin.range_start ≤ r' ∧ r' ≤ cLin.range_end :=
  C2_range_containment cLin noInput 3 7 (by norm_num [cLin])
    (DoubleSlider.integral_elim rfl)

/-- C7 (amended): when the whole region is hovered (no drags, floating type,
in-range separated pair), the scroll/zoom handler produces, in value space
for non-logarithmic mode, `lower - zoom_delta` and `upper + zoom_delta`
(after the scroll pan), clamped to the range, with the changed flag set
exactly when the net scroll or zoom delta is nonzero; in logarithmic mode
the zoom works in pixel space but with the opposite orientation to the
claim: the LOWER handle's pixel is increased by `zoom_delta` and the UPPER
handle's pixel decreased. -/
theorem C7_scroll_zoom (c : DoubleSlider) (i : FrameInput) (l0 r0 : ℚ)
    (hspan : i.in_between_dragged = false) (hld : i.left_dragged = false)
    (hrd : i.right_dragged = false) (hhov : i.hovered = true)
    (hasc : c.range_start ≤ c.range_end) (hintF : c.integral = false)
    (hl0 : c.range_start ≤ l0) (hl0' : l0 ≤ c.range_end)
    (hr0 : c.range_start ≤ r0) (hr0' : r0 ≤ c.range_end)
    (hsep : l0 + c.separation_distance ≤ r0) :
    c.ui i l0 r0 = some (
      let scroll_delta := (if c.horizontal_scroll then i.scroll_x * c.scroll_factor else 0)
        + (if c.vertical_scroll then i.scroll_y * c.scroll_factor else 0)
      let zoom_delta := c.zoom_factor * (i.zoom_gesture - 1)
      if c.logarithmic then
        ((c.clampPure (c.x_to_val (c.val_to_x
            (c.x_to_val (c.val_to_x l0 + scroll_delta)) + zoom_delta)),
          c.clampPure (c.x_to_val (c.val_to_x
            (c.x_to_val (c.val_to_x r0 + scroll_delta)) - zoom_delta))),
         if scroll_delta ≠ 0 ∨ zoom_delta ≠ 0 then true else false)
      else
        ((c.clampPure (l0 + scroll_delta - zoom_delta),
          c.clampPure (r0 + scroll_delta + zoom_delta)),
         if scroll_delta ≠ 0 ∨ zoom_delta ≠ 0 then true else false)) := by
  rw [c.ui_eq_some i l0 r0 hasc,
    c.uiVals_hover_eq i l0 r0 hspan hld hrd hhov hl0 hl0' hr0 hr0' hsep
      (DoubleSlider.integral_elim hintF) (DoubleSlider.integral_elim hintF)]
  cases hlogc : c.logarithmic
  · simp only [hlogc, Bool.false_eq_true, if_false, DoubleSlider.f64_to_val, hintF]
  · simp only [hlogc, if_true]

/-- Witness for C7: hovered frame on the linear configuration with scroll
`100` (net pan `1`) and zoom gesture `2` (zoom delta `10`): the values
`(3, 7)` become `clamp(3 + 1 - 10) = 0` and `clamp(7 + 1 + 10) = 10`, with
the changed flag set. -/
theorem C7_scroll_zoom_witness :
    cLin.ui { noInput with hovered := true, scroll_x := 100, zoom_gesture := 2 } 3 7
      = some (
        let scroll_delta := (if cLin.horizontal_scroll then
            ({ noInput with hovered := true, scroll_x := 100, zoom_gesture := 2 } :
              FrameInput).scroll_x * cLin.scroll_factor else 0)
          + (if cLin.vertical_scroll then
            ({ noInput with hovered := true, scroll_x := 100, zoom_gesture := 2 } :
              FrameInput).scroll_y * cLin.scroll_factor else 0)
        let zoom_delta := cLin.zoom_factor *
          (({ noInput with hovered := true, scroll_x := 100, zoom_gesture := 2 } :
            FrameInput).zoom_gesture - 1)
        if cLin.logarithmic then
          ((cLin.clampPure (cLin.x_to_val (cLin.val_to_x
              (cLin.x_to_val (cLin.val_to_x 3 + scroll_delta)) + zoom_delta)),
            cLin.clampPure (cLin.x_to_val (cLin.val_to_x
              (cLin.x_to_val (cLin.val_to_x 7 + scroll_delta)) - zoom_delta))),
           if scroll_delta ≠ 0 ∨ zoom_delta ≠ 0 then true else false)
        else
          ((cLin.clampPure (3 + scroll_delta - zoom_delta),
            cLin.clampPure (7 + scroll_delta + zoom_delta)),
           if scroll_delta ≠ 0 ∨ zoom_delta ≠ 0 then true else false)) :=
  C7_scroll_zoom cLin _ 3 7 rfl rfl rfl rfl (by norm_num [cLin])
    rfl (by norm_num [cLin]) (by norm_num [cLin]) (by norm_num [cLin])
    (by norm_num [cLin]) (by norm_num [cLin])

/-- C4 (amended): zero input (nothing dragged, zero scroll, neutral zoom
gesture, any hover state) leaves a pair unchanged and reports no change,
PROVIDED the starting pair already satisfies the slider's invariants: both
values in range, `upper ≥ lower + separation`, integer values for an
integral type, and -- for logarithmic mode -- positive usable width and the
`log10`/`pow10` facts of the real functions at the two values.  (A pair
violating the separation invariant is moved by the fix-up logic even with
zero input, see the counterexample.) -/
theorem C4_zero_input (c : DoubleSlider) (l0 r0 : ℚ) (hov : Bool)
    (hasc : c.range_start ≤ c.range_end)
    (hl0 : c.range_start ≤ l0) (hl0' : l0 ≤ c.range_end)
    (hr0 : c.range_start ≤ r0) (hr0' : r0 ≤ c.range_end)
    (hsep : l0 + c.separation_distance ≤ r0)
    (hvl : c.integral = true → ∃ n : ℤ, l0 = (n : ℚ))
    (hvr : c.integral = true → ∃ n : ℤ, r0 = (n : ℚ))
    (hlogH : c.logarithmic = true →
      0 < c.range_start ∧ 0 < c.range_end ∧
      0 < c.width - 2 * (c.control_point_radius + OFFSET) ∧
      c.log10 c.range_start < c.log10 c.range_end ∧
      c.log10 c.range_start ≤ c.log10 l0 ∧ c.log10 l0 ≤ c.log10 c.range_end ∧
      c.pow10 (c.log10 l0) = l0 ∧
      c.log10 c.range_start ≤ c.log10 r0 ∧ c.log10 r0 ≤ c.log10 c.range_end ∧
      c.pow10 (c.log10 r0) = r0) :
    c.ui (zeroInput hov) l0 r0 = some ((l0, r0), false) := by
  cases hov
  case false =>
    rw [c.ui_eq_some _ _ _ hasc, c.uiVals_drag_eq _ _ _ rfl rfl]
    simp only [zeroInput, Bool.false_eq_true, if_false]
    rw [if_neg (not_lt.mpr hsep), if_neg (not_lt.mpr hsep),
      c.clampPure_eq_self l0 hl0 hl0' hvl, c.clampPure_eq_self r0 hr0 hr0' hvr,
      if_neg (not_lt.mpr (by linarith)), if_neg (not_lt.mpr (by linarith)),
      c.clampPure_eq_self l0 hl0 hl0' hvl, c.clampPure_eq_self r0 hr0 hr0' hvr]
    rfl
  case true =>
    rw [c.ui_eq_some _ _ _ hasc,
      c.uiVals_hover_eq _ l0 r0 rfl rfl rfl rfl hl0 hl0' hr0 hr0' hsep hvl hvr]
    have hsd : (if c.horizontal_scroll then
          (zeroInput true).scroll_x * c.scroll_factor else 0)
        + (if c.vertical_scroll then
          (zeroInput true).scroll_y * c.scroll_factor else 0) = 0 := by
      simp [zeroInput]
    have hzd : c.zoom_factor * ((zeroInput true).zoom_gesture - 1) = 0 := by
      simp [zeroInput]
    simp only [hsd, hzd, add_zero, sub_zero]
    cases hlogc : c.logarithmic
    case false =>
      simp only [hlogc, Bool.false_eq_true, if_false]
      rw [c.f64_to_val_eq_self l0 hvl, c.f64_to_val_eq_self r0 hvr,
        c.f64_to_val_eq_self l0 hvl, c.f64_to_val_eq_self r0 hvr,
        c.clampPure_eq_self l0 hl0 hl0' hvl, c.clampPure_eq_self r0 hr0 hr0' hvr]
      norm_num
    case true =>
      obtain ⟨Hlo, Hhi, Hw, Hst, Hm1, Hm2, Hinv, Hm3, Hm4, Hinv2⟩ := hlogH hlogc
      simp only [hlogc, if_true]
      rw [c.roundtrip_of_log l0 hlogc Hw Hlo Hhi (lt_of_lt_of_le Hlo hl0) Hm1 Hm2 Hst Hinv hvl,
        c.roundtrip_of_log r0 hlogc Hw Hlo Hhi (lt_of_lt_of_le Hlo hr0) Hm3 Hm4 Hst Hinv2 hvr,
        c.roundtrip_of_log l0 hlogc Hw Hlo Hhi (lt_of_lt_of_le Hlo hl0) Hm1 Hm2 Hst Hinv hvl,
        c.roundtrip_of_log r0 hlogc Hw Hlo Hhi (lt_of_lt_of_le Hlo hr0) Hm3 Hm4 Hst Hinv2 hvr,
        c.clampPure_eq_self l0 hl0 hl0' hvl, c.clampPure_eq_self r0 hr0 hr0' hvr]
      norm_num

/-- Witness for C4: the spec's logarithmic scenario 3 -- range
`[1e-10, 1e20]`, initial `(3e-4, 7e12)`, zero scroll/zoom input while
hovered -- leaves the values unchanged with the changed flag false. -/
theorem C4_zero_input_witness :
    cLogBig.ui (zeroInput true) (3/10000) 7000000000000
      = some ((3/10000, 7000000000000), false) :=
  C4_zero_input cLogBig (3/10000) 7000000000000 true
    (by norm_num [cLogBig, cLogId]) (by norm_num [cLogBig, cLogId])
    (by norm_num [cLogBig, cLogId]) (by norm_num [cLogBig, cLogId])
    (by norm_num [cLogBig, cLogId]) (by norm_num [cLogBig, cLogId])
    (DoubleSlider.integral_elim rfl) (DoubleSlider.integral_elim rfl)
    (by norm_num [cLogBig, cLogId, OFFSET])

namespace DoubleSlider

/-- Closed form of `clampPure` for a floating configuration. -/
theorem clampPure_eq_ite (c : DoubleSlider) (hintF : c.integral = false) (v : ℚ) :
    c.clampPure v = if v < c.range_start then c.range_start
      else if c.range_end < v then c.range_end else v := by
  simp only [clampPure, f64_to_val, hintF, Bool.false_eq_true, if_false]

theorem clampPure_eq_min (c : DoubleSlider) (hintF : c.integral = false) {v : ℚ}
    (hge : c.range_start ≤ v) : c.clampPure v = min v c.range_end := by
  rw [c.clampPure_eq_ite hintF]
  split_ifs with h1 h2
  · exact absurd h1 (not_lt.mpr hge)
  · exact (min_eq_right h2.le).symm
  · exact (min_eq_left (not_lt.mp h2)).symm

/-- Separation survives the final clamp round when the pair about to be
clamped is separated, its upper component is at most `range_end` and at
least `range_start + separation`. -/
theorem clamp_sep (c : DoubleSlider) (hintF : c.integral = false)
    (hasc : c.range_start ≤ c.range_end) (a b : ℚ)
    (h1 : a ≤ b - c.separation_distance) (h2 : b ≤ c.range_end)
    (h3 : c.range_start + c.separation_distance ≤ b) :
    c.separation_distance ≤ c.clampPure b - c.clampPure a := by
  rw [c.clampPure_eq_ite hintF, c.clampPure_eq_ite hintF]
  split_ifs <;> linarith

/-- Frame with only the lower handle dragged, `push_by_dragging`, ascending
linear range, when the dragged value violates the separation: the upper
handle is pushed to `L + separation` (then both are range-clamped, and the
second fix-up caps the lower handle at `range_end - separation`). -/
theorem fix_push_lower_drag (c : DoubleSlider) (i : FrameInput) (l0 r0 : ℚ)
    (hlog : c.logarithmic = false) (hintF : c.integral = false)
    (hspan : i.in_between_dragged = false) (hhov : i.hovered = false)
    (hld : i.left_dragged = true) (hrd : i.right_dragged = false)
    (hpush : c.push_by_dragging = true)
    (hasc : c.range_start ≤ c.range_end)
    (hsep0 : 0 ≤ c.separation_distance)
    (hsepr : c.separation_distance ≤ c.range_end - c.range_start)
    (hviol : r0 < c.x_to_val i.left_pointer_x + c.separation_distance) :
    c.ui i l0 r0 = some
      ((min (c.x_to_val i.left_pointer_x) (c.range_end - c.separation_distance),
        min (c.x_to_val i.left_pointer_x + c.separation_distance) c.range_end), true) := by
  obtain ⟨hL1, hL2⟩ :=
    c.x_to_val_mem_of_linear i.left_pointer_x hlog hasc (integral_elim hintF)
  rw [c.ui_eq_some i l0 r0 hasc, c.uiVals_drag_eq i l0 r0 hspan hhov]
  simp only [hld, hrd, hpush, Bool.false_eq_true, if_false, if_true, Bool.or_false]
  rw [if_pos hviol, if_pos hviol]
  simp only [f64_to_val, hintF, Bool.false_eq_true, if_false]
  set L := c.x_to_val i.left_pointer_x with hLdef
  have hmin1 : c.range_start + c.separation_distance
      ≤ min (L + c.separation_distance) c.range_end :=
    le_min (by linarith) (by linarith)
  have hmin2 : min (L + c.separation_distance) c.range_end ≤ c.range_end :=
    min_le_right _ _
  rw [c.clampPure_eq_self L hL1 hL2 (integral_elim hintF),
    c.clampPure_eq_min hintF (by linarith : c.range_start ≤ L + c.separation_distance)]
  by_cases hc : min (L + c.separation_distance) c.range_end - c.separation_distance < L
  · rw [if_pos hc, if_pos hc,
      c.clampPure_eq_self _ (by linarith) (by linarith) (integral_elim hintF),
      c.clampPure_eq_self _ (by linarith) (by linarith) (integral_elim hintF)]
    have h7 : c.range_end < L + c.separation_distance := by
      by_contra hh
      push_neg at hh
      rw [min_eq_left hh] at hc
      linarith
    rw [min_eq_right (by linarith : c.range_end ≤ L + c.separation_distance),
      min_eq_right (by linarith : c.range_end - c.separation_distance ≤ L)]
  · rw [if_neg hc, if_neg hc,
      c.clampPure_eq_self L hL1 hL2 (integral_elim hintF),
      c.clampPure_eq_self _ (by linarith) (by linarith) (integral_elim hintF)]
    have h8 : min L (c.range_end - c.separation_distance) = L := by
      rcases le_total (L + c.separation_distance) c.range_end with hh | hh
      · exact min_eq_left (by linarith)
      · rw [min_eq_right hh] at hc
        push_neg at hc
        exact min_eq_left (by linarith)
    rw [h8]

end DoubleSlider

namespace DoubleSlider

/-- Frame with only the upper handle dragged, `push_by_dragging`, ascending
linear range, starting from an in-range separated pair: when the dragged
value `U` violates the separation (and leaves push room, `U ≥ min + sep`),
the lower handle is pushed to exactly `U - separation`. -/
theorem fix_push_upper_drag (c : DoubleSlider) (i : FrameInput) (l0 r0 : ℚ)
    (hlog : c.logarithmic = false) (hintF : c.integral = false)
    (hspan : i.in_between_dragged = false) (hhov : i.hovered = false)
    (hld : i.left_dragged = false) (hrd : i.right_dragged = true)
    (hpush : c.push_by_dragging = true)
    (hasc : c.range_start ≤ c.range_end)
    (hsep0 : 0 ≤ c.separation_distance)
    (hl0 : c.range_start ≤ l0) (hl0' : l0 ≤ c.range_end)
    (hr0 : c.range_start ≤ r0) (hr0' : r0 ≤ c.range_end)
    (hsepi : l0 + c.separation_distance ≤ r0)
    (hU : c.range_start + c.separation_distance ≤ c.x_to_val i.right_pointer_x)
    (hviol : c.x_to_val i.right_pointer_x - c.separation_distance < l0) :
    c.ui i l0 r0 = some
      ((c.x_to_val i.right_pointer_x - c.separation_distance,
        c.x_to_val i.right_pointer_x), true) := by
  obtain ⟨hU1, hU2⟩ :=
    c.x_to_val_mem_of_linear i.right_pointer_x hlog hasc (integral_elim hintF)
  rw [c.ui_eq_some i l0 r0 hasc, c.uiVals_drag_eq i l0 r0 hspan hhov]
  simp only [hld, hrd, hpush, Bool.false_eq_true, if_false, if_true, Bool.false_or]
  rw [if_neg (not_lt.mpr hsepi),
    c.clampPure_eq_self l0 hl0 hl0' (integral_elim hintF),
    if_pos hviol, if_pos hviol]
  simp only [f64_to_val, hintF, Bool.false_eq_true, if_false]
  rw [c.clampPure_eq_self (c.x_to_val i.right_pointer_x - c.separation_distance)
      (by linarith) (by linarith) (integral_elim hintF),
    c.clampPure_eq_self (c.x_to_val i.right_pointer_x) hU1 hU2 (integral_elim hintF)]

/-- Frame with only the lower handle dragged, `push_by_dragging = false`,
ascending linear range: when the dragged value violates the separation, the
dragged (lower) handle itself is clamped to `upper - separation` and the
upper handle is left unchanged. -/
theorem fix_nopush_lower_drag (c : DoubleSlider) (i : FrameInput) (l0 r0 : ℚ)
    (hlog : c.logarithmic = false) (hintF : c.integral = false)
    (hspan : i.in_between_dragged = false) (hhov : i.hovered = false)
    (hld : i.left_dragged = true) (hrd : i.right_dragged = false)
    (hpush : c.push_by_dragging = false)
    (hasc : c.range_start ≤ c.range_end)
    (hsep0 : 0 ≤ c.separation_distance)
    (hr0' : r0 ≤ c.range_end)
    (hr0sep : c.range_start + c.separation_distance ≤ r0)
    (hviol : r0 < c.x_to_val i.left_pointer_x + c.separation_distance) :
    c.ui i l0 r0 = some ((r0 - c.separation_distance, r0), true) := by
  rw [c.ui_eq_some i l0 r0 hasc, c.uiVals_drag_eq i l0 r0 hspan hhov]
  simp only [hld, hrd, hpush, Bool.false_eq_true, if_false, if_true, Bool.or_false]
  rw [if_pos hviol, if_pos hviol]
  simp only [f64_to_val, hintF, Bool.false_eq_true, if_false]
  rw [c.clampPure_eq_self (r0 - c.separation_distance) (by linarith) (by linarith)
      (integral_elim hintF),
    c.clampPure_eq_self r0 (by linarith) hr0' (integral_elim hintF),
    if_neg (lt_irrefl _), if_neg (lt_irrefl _),
    c.clampPure_eq_self (r0 - c.separation_distance) (by linarith) (by linarith)
      (integral_elim hintF),
    c.clampPure_eq_self r0 (by linarith) hr0' (integral_elim hintF)]

/-- Frame with only the upper handle dragged, `push_by_dragging = false`,
ascending linear range, starting from an in-range separated pair: when the
dragged value violates the separation, the dragged (upper) handle itself is
clamped to `lower + separation` and the lower handle is left unchanged. -/
theorem fix_nopush_upper_drag (c : DoubleSlider) (i : FrameInput) (l0 r0 : ℚ)
    (hlog : c.logarithmic = false) (hintF : c.integral = false)
    (hspan : i.in_between_dragged = false) (hhov : i.hovered = false)
    (hld : i.left_dragged = false) (hrd : i.right_dragged = true)
    (hpush : c.push_by_dragging = false)
    (hasc : c.range_start ≤ c.range_end)
    (hsep0 : 0 ≤ c.separation_distance)
    (hl0 : c.range_start ≤ l0) (hl0' : l0 ≤ c.range_end)
    (hr0 : c.range_start ≤ r0) (hr0' : r0 ≤ c.range_end)
    (hsepi : l0 + c.separation_distance ≤ r0)
    (hviol : c.x_to_val i.right_pointer_x - c.separation_distance < l0) :
    c.ui i l0 r0 = some ((l0, l0 + c.separation_distance), true) := by
  rw [c.ui_eq_some i l0 r0 hasc, c.uiVals_drag_eq i l0 r0 hspan hhov]
  simp only [hld, hrd, hpush, Bool.false_eq_true, if_false, if_true, Bool.false_or]
  rw [if_neg (not_lt.mpr hsepi),
    c.clampPure_eq_self l0 hl0 hl0' (integral_elim hintF),
    if_pos hviol, if_pos hviol]
  simp only [f64_to_val, hintF, Bool.false_eq_true, if_false]
  rw [c.clampPure_eq_self l0 hl0 hl0' (integral_elim hintF),
    c.clampPure_eq_self (l0 + c.separation_distance) (by linarith) (by linarith)
      (integral_elim hintF)]

/-- The ordering invariant after a drag frame (no span drag, no hover) on an
ascending linear range, from an in-range separated pair: the returned pair is
separated by at least `separation_distance`, provided that when the upper
handle is dragged with `push_by_dragging` its new value leaves room for the
push (`≥ min + separation`; otherwise the final range clamp can pull the
pushed lower handle back up to `min`, see the C1 counterexample). -/
theorem sep_after_frame (c : DoubleSlider) (i : FrameInput) (l0 r0 : ℚ)
    (hlog : c.logarithmic = false) (hintF : c.integral = false)
    (hspan : i.in_between_dragged = false) (hhov : i.hovered = false)
    (hasc : c.range_start ≤ c.range_end)
    (hsep0 : 0 ≤ c.separation_distance)
    (hsepr : c.separation_distance ≤ c.range_end - c.range_start)
    (hl0 : c.range_start ≤ l0) (hl0' : l0 ≤ c.range_end)
    (hr0 : c.range_start ≤ r0) (hr0' : r0 ≤ c.range_end)
    (hsepi : l0 + c.separation_distance ≤ r0)
    (hcond : c.push_by_dragging = true → i.right_dragged = true →
      c.range_start + c.separation_distance ≤ c.x_to_val i.right_pointer_x) :
    ∃ l' r' ch, c.ui i l0 r0 = some ((l', r'), ch) ∧
      c.separation_distance ≤ r' - l' := by
  obtain ⟨hL1, hL2⟩ :=
    c.x_to_val_mem_of_linear i.left_pointer_x hlog hasc (integral_elim hintF)
  obtain ⟨hU1, hU2⟩ :=
    c.x_to_val_mem_of_linear i.right_pointer_x hlog hasc (integral_elim hintF)
  rw [c.ui_eq_some i l0 r0 hasc, c.uiVals_drag_eq i l0 r0 hspan hhov]
  refine ⟨_, _, _, rfl, ?_⟩
  dsimp only
  simp only [f64_to_val, hintF, Bool.false_eq_true, if_false]
  cases hp : c.push_by_dragging
  case false =>
    simp only [hp, Bool.false_eq_true, if_false, ite_self]
    set l2 := if i.left_dragged = true then c.x_to_val i.left_pointer_x else l0 with hl2def
    have hl2a : c.range_start ≤ l2 := by
      rw [hl2def]
      split_ifs <;> linarith
    rw [c.clampPure_eq_self r0 hr0 hr0' (integral_elim hintF)]
    set l3 := if r0 < l2 + c.separation_distance
        then r0 - c.separation_distance else l2 with hl3def
    have hl3a : c.range_start ≤ l3 := by
      rw [hl3def]
      split_ifs <;> linarith
    have hl3b : l3 ≤ r0 - c.separation_distance := by
      rw [hl3def]
      split_ifs <;> linarith
    rw [c.clampPure_eq_self l3 hl3a (by linarith) (integral_elim hintF)]
    set r5 := if i.right_dragged = true then c.x_to_val i.right_pointer_x else r0 with hr5def
    have hr5b : r5 ≤ c.range_end := by
      rw [hr5def]
      split_ifs <;> linarith
    apply c.clamp_sep hintF hasc
    · split_ifs <;> linarith
    · split_ifs <;> linarith
    · split_ifs <;> linarith
  case true =>
    simp only [hp, if_true, ite_self]
    set l2 := if i.left_dragged = true then c.x_to_val i.left_pointer_x else l0 with hl2def
    have hl2a : c.range_start ≤ l2 := by
      rw [hl2def]
      split_ifs <;> linarith
    have hl2b : l2 ≤ c.range_end := by
      rw [hl2def]
      split_ifs <;> linarith
    rw [c.clampPure_eq_self l2 hl2a hl2b (integral_elim hintF)]
    set r2 := if r0 < l2 + c.separation_distance
        then l2 + c.separation_distance else r0 with hr2def
    have hr2a : l2 + c.separation_distance ≤ r2 := by
      rw [hr2def]
      split_ifs <;> linarith
    set r4 := c.clampPure r2 with hr4def
    have hr4a : c.range_start + c.separation_distance ≤ r4 := by
      rw [hr4def, c.clampPure_eq_ite hintF]
      split_ifs <;> linarith
    have hr4b : r4 ≤ c.range_end := by
      rw [hr4def, c.clampPure_eq_ite hintF]
      split_ifs <;> linarith
    set r5 := if i.right_dragged = true then c.x_to_val i.right_pointer_x else r4 with hr5def
    have hr5a : c.range_start + c.separation_distance ≤ r5 := by
      rw [hr5def]
      split_ifs with hb
      · exact hcond hp hb
      · exact hr4a
    have hr5b : r5 ≤ c.range_end := by
      rw [hr5def]
      split_ifs <;> linarith
    apply c.clamp_sep hintF hasc
    · split_ifs <;> linarith
    · exact hr5b
    · exact hr5a
end DoubleSlider

/-- C1 (amended): on an ascending non-logarithmic range (floating type,
`0 ≤ separation ≤ max - min`), for a single-handle drag frame whose dragged
value violates the separation: with `push_by_dragging` the non-dragged
handle is moved to exactly maintain the separation (the final range clamp
then caps the pair at the range edge, parts 1-2); with
`push_by_dragging = false` the dragged handle itself is clamped to the
separation boundary and the other handle is left unchanged (parts 3-4); and
(part 5) `upper - lower ≥ min_separation` holds when the operation returns
for every drag frame from an in-range separated pair, PROVIDED that a
`push_by_dragging` upper-handle drag lands at `≥ min + separation` -- when
it lands lower, the final range clamp pulls the pushed lower handle back to
`min` and the separation shrinks (see the counterexample). -/
theorem C1_separation_fixup :
    (∀ (c : DoubleSlider) (i : FrameInput) (l0 r0 : ℚ),
      c.logarithmic = false → c.integral = false →
      i.in_between_dragged = false → i.hovered = false →
      i.left_dragged = true → i.right_dragged = false →
      c.push_by_dragging = true →
      c.range_start ≤ c.range_end → 0 ≤ c.separation_distance →
      c.separation_distance ≤ c.range_end - c.range_start →
      r0 < c.x_to_val i.left_pointer_x + c.separation_distance →
      c.ui i l0 r0 = some
        ((min (c.x_to_val i.left_pointer_x) (c.range_end - c.separation_distance),
          min (c.x_to_val i.left_pointer_x + c.separation_distance) c.range_end),
         true)) ∧
    (∀ (c : DoubleSlider) (i : FrameInput) (l0 r0 : ℚ),
      c.logarithmic = false → c.integral = false →
      i.in_between_dragged = false → i.hovered = false →
      i.left_dragged = false → i.right_dragged = true →
      c.push_by_dragging = true →
      c.range_start ≤ c.range_end → 0 ≤ c.separation_distance →
      c.range_start ≤ l0 → l0 ≤ c.range_end →
      c.range_start ≤ r0 → r0 ≤ c.range_end →
      l0 + c.separation_distance ≤ r0 →
      c.range_start + c.separation_distance ≤ c.x_to_val i.right_pointer_x →
      c.x_to_val i.right_pointer_x - c.separation_distance < l0 →
      c.ui i l0 r0 = some
        ((c.x_to_val i.right_pointer_x - c.separation_distance,
          c.x_to_val i.right_pointer_x), true)) ∧
    (∀ (c : DoubleSlider) (i : FrameInput) (l0 r0 : ℚ),
      c.logarithmic = false → c.integral = false →
      i.in_between_dragged = false → i.hovered = false →
      i.left_dragged = true → i.right_dragged = false →
      c.push_by_dragging = false →
      c.range_start ≤ c.range_end → 0 ≤ c.separation_distance →
      r0 ≤ c.range_end → c.range_start + c.separation_distance ≤ r0 →
      r0 < c.x_to_val i.left_pointer_x + c.separation_distance →
      c.ui i l0 r0 = some ((r0 - c.separation_distance, r0), true)) ∧
    (∀ (c : DoubleSlider) (i : FrameInput) (l0 r0 : ℚ),
      c.logarithmic = false → c.integral = false →
      i.in_between_dragged = false → i.hovered = false →
      i.left_dragged = false → i.right_dragged = true →
      c.push_by_dragging = false →
      c.range_start ≤ c.range_end → 0 ≤ c.separation_distance →
      c.range_start ≤ l0 → l0 ≤ c.range_end →
      c.range_start ≤ r0 → r0 ≤ c.range_end →
      l0 + c.separation_distance ≤ r0 →
      c.x_to_val i.right_pointer_x - c.separation_distance < l0 →
      c.ui i l0 r0 = some ((l0, l0 + c.separation_distance), true)) ∧
    (∀ (c : DoubleSlider) (i : FrameInput) (l0 r0 : ℚ),
      c.logarithmic = false → c.integral = false →
      i.in_between_dragged = false → i.hovered = false →
      c.range_start ≤ c.range_end → 0 ≤ c.separation_distance →
      c.separation_distance ≤ c.range_end - c.range_start →
      c.range_start ≤ l0 → l0 ≤ c.range_end →
      c.range_start ≤ r0 → r0 ≤ c.range_end →
      l0 + c.separation_distance ≤ r0 →
      (c.push_by_dragging = true → i.right_dragged = true →
        c.range_start + c.separation_distance ≤ c.x_to_val i.right_pointer_x) →
      ∃ l' r' ch, c.ui i l0 r0 = some ((l', r'), ch) ∧
        c.separation_distance ≤ r' - l') :=
  ⟨DoubleSlider.fix_push_lower_drag, DoubleSlider.fix_push_upper_drag,
   DoubleSlider.fix_nopush_lower_drag, DoubleSlider.fix_nopush_upper_drag,
   DoubleSlider.sep_after_frame⟩

/-- Witness for C1: `push_by_dragging = false`, range `[0, 10]`, separation
`1`, pair `(2, 6)`, lower handle dragged to the pixel mapping to `9`
(violating `6 ≥ 9 + 1`): the dragged lower handle is clamped to
`6 - 1 = 5`, the upper handle is unchanged. -/
theorem C1_separation_fixup_witness :
    ({ cLin with push_by_dragging := false } : DoubleSlider).ui
      { noInput with left_dragged := true, left_pointer_x := 414/5 } 2 6
      = some ((5, 6), true) :=
  (C1_separation_fixup.2.2.1 { cLin with push_by_dragging := false }
    { noInput with left_dragged := true, left_pointer_x := 414/5 } 2 6
    rfl rfl rfl rfl rfl rfl rfl (by norm_num [cLin]) (by norm_num [cLin])
    (by norm_num [cLin]) (by norm_num [cLin]) (by
      norm_num [cLin, noInput, zeroInput, DoubleSlider.x_to_val,
        DoubleSlider.x_to_val_value, DoubleSlider.f64_to_val, clamp01, OFFSET])).trans
    (by norm_num [cLin])

/-- Counterexample to C1 as stated: range `[0, 10]`, separation `1`,
`push_by_dragging`, start `(5, 8)`, upper handle dragged to the left edge
(value `0`): the push sets the lower handle to `-1`, but the final range
clamp pulls it back to `0`, so the frame returns `(0, 0)` and
`upper - lower = 0 < 1 - ε` (shown for ε = 1/2; it fails for every
ε < 1 = min_separation). -/
theorem C1_counterexample :
    cLin.ui { noInput with right_dragged := true, right_pointer_x := 0 } 5 8
      = some ((0, 0), true) ∧ (0 : ℚ) - 0 < cLin.separation_distance - 1/2 := by
  constructor
  · norm_num [DoubleSlider.ui, DoubleSlider.x_to_val, DoubleSlider.x_to_val_value,
      DoubleSlider.val_to_x, DoubleSlider.f64_to_val, DoubleSlider.clamp_to_range,
      f64_clamp, clamp01, OFFSET, cLin, noInput, zeroInput]
  · norm_num [cLin]

/-- Counterexample to C4 as stated: the starting pair `(5, 2)` (violating
the separation invariant) is changed to `(5, 6)` by the fix-up logic even
with zero input -- and the changed flag is still false. -/
theorem C4_counterexample :
    cLin.ui noInput 5 2 = some ((5, 6), false) ∧
      ((5 : ℚ), (6 : ℚ)) ≠ ((5 : ℚ), (2 : ℚ)) := by
  constructor
  · norm_num [DoubleSlider.ui, DoubleSlider.x_to_val, DoubleSlider.x_to_val_value,
      DoubleSlider.val_to_x, DoubleSlider.f64_to_val, DoubleSlider.clamp_to_range,
      f64_clamp, clamp01, OFFSET, cLin, noInput, zeroInput]
  · norm_num [Prod.ext_iff]

/-- C5 (amended): range `[10, 300]`, separation `10`, prior upper value
`300` (the range maximum), lower handle dragged to the pixel whose unclamped
affine preimage is `310` (beyond the track, so `x_to_val` yields `300`):
for BOTH values of `push_by_dragging` and any prior lower value, the frame
returns lower `290 = 300 - 10`, upper unchanged at `300`, both in range. -/
theorem C5_drag_lower_beyond (push : Bool) (l0 : ℚ) :
    (c5cfg push).ui inp5 l0 300 = some ((290, 300), true) := by
  rw [(c5cfg push).ui_eq_some inp5 l0 300 (by norm_num [c5cfg, cLin]),
    (c5cfg push).uiVals_drag_eq inp5 l0 300 rfl rfl]
  have hx : (c5cfg push).x_to_val inp5.left_pointer_x = 300 := by
    norm_num [c5cfg, cLin, inp5, noInput, zeroInput, DoubleSlider.x_to_val,
      DoubleSlider.x_to_val_value, DoubleSlider.f64_to_val, clamp01, OFFSET]
  rw [hx]
  cases push <;>
    norm_num [c5cfg, cLin, inp5, noInput, zeroInput, DoubleSlider.clampPure,
      DoubleSlider.f64_to_val, clamp01, OFFSET]

/-- Counterexample to C5 as stated: with a prior upper value of `150`
(not the range maximum) and `push_by_dragging`, the same drag pushes the
upper handle from `150` to `300` -- "upper unchanged at its prior value"
fails. -/
theorem C5_counterexample :
    (c5cfg true).ui inp5 50 150 = some ((290, 300), true) ∧ (300 : ℚ) ≠ 150 := by
  constructor
  · norm_num [DoubleSlider.ui, DoubleSlider.x_to_val, DoubleSlider.x_to_val_value,
      DoubleSlider.val_to_x, DoubleSlider.f64_to_val, DoubleSlider.clamp_to_range,
      f64_clamp, clamp01, OFFSET, c5cfg, cLin, inp5, noInput, zeroInput]
  · norm_num

/-- Counterexample to C7's logarithmic clause as stated: on the logarithmic
range `[1/10, 10]` (identity `log10`/`pow10` stand-ins, separation `0`,
zoom factor `41/2`), a hovered zoom gesture of `2` gives
`zoom_delta = 41/2 > 0`, yet the UPPER handle's pixel DECREASES by
`zoom_delta` (from `91` to `141/2`) instead of increasing: the upper value
drops from `10` to `301/40` while the claim says it increases. -/
theorem C7_counterexample :
    c7cfg.ui inp7 (1/10) 10 = some ((103/40, 301/40), true) ∧
      c7cfg.val_to_x (301/40) = c7cfg.val_to_x 10 - 41/2 ∧
      ¬(c7cfg.val_to_x (301/40) = c7cfg.val_to_x 10 + 41/2) := by
  refine ⟨?_, ?_, ?_⟩ <;>
    norm_num [DoubleSlider.ui, DoubleSlider.x_to_val, DoubleSlider.x_to_val_value,
      DoubleSlider.val_to_x, DoubleSlider.f64_to_val, DoubleSlider.clamp_to_range,
      f64_clamp, clamp01, OFFSET, c7cfg, cLogId, inp7, noInput, zeroInput]
